import Mathlib

/-!
# cmd-weather-tool: the parser, fetcher, presenter and `main` of `weather.cpp`

A shallow embedding of `src/weather.cpp`.

* `double` is idealised as `ℚ` (exact arithmetic, `273.15 = 5463/20`).
* `int` is a 32-bit two's complement integer: a value stored into an `int`
  goes through `toInt32`.
* The JSON text grammar (`json::parse`) is a parameter `parse`; the JSON value
  type and the accessors `value`, `operator[]` and `get<T>` of nlohmann::json
  that the program calls are modelled after that library's documented behaviour
  (`type_error.302`, `.305`, `.306`).
* Effects are a list of events in program order: a line written to a stream
  (what one `<< ... << std::endl` statement writes) or a transfer.
-/

namespace Weather

/-! ## JSON values and the library accessors the program uses -/

/-- Exceptions the JSON library throws: `parse_error` from `json::parse`, and
`type_error` with its numeric id from `value`, `operator[]` and `get`. -/
inductive Exn where
  | parse_error
  | type_error (id : Nat)
  deriving DecidableEq

/-- A JSON value. `num_int` covers the library's `number_integer` and
`number_unsigned` (a 64-bit integer), `num_float` its `number_float`. An object
is a key-value list read by first match, as `find` does on the key-unique map. -/
inductive Json where
  | null
  | bool (b : Bool)
  | num_int (i : Int)
  | num_float (q : ℚ)
  | str (s : String)
  | arr (items : List Json)
  | obj (fields : List (String × Json))

/-- Conversion of a value to C++ `int`: reduction into `[-2^31, 2^31)`. -/
def toInt32 (i : Int) : Int :=
  (i + 2147483648) % 4294967296 - 2147483648

/-- Rounding toward zero, as `static_cast<int>` does on a `double`. -/
def truncQ (q : ℚ) : Int :=
  if 0 ≤ q then ⌊q⌋ else ⌈q⌉

namespace Json

/-- The library's `find` on an object's members. -/
def find (k : String) : List (String × Json) → Option Json
  | [] => none
  | (k', v) :: rest => if k' = k then some v else find k rest

/-- The value of a JSON number; `none` for every other type. -/
def number? : Json → Option ℚ
  | num_int i => some (i : ℚ)
  | num_float q => some q
  | _ => none

/-- The library's `is_string()`. -/
def is_string : Json → Bool
  | str _ => true
  | _ => false

/-- The library's `is_number()`. -/
def is_number : Json → Bool
  | num_int _ => true
  | num_float _ => true
  | _ => false

/-- The library's `is_boolean()`. -/
def is_boolean : Json → Bool
  | bool _ => true
  | _ => false

/-- The conversion `get<std::string>()`: `type_error.302` unless a string. -/
def get_string : Json → Except Exn String
  | str s => .ok s
  | _ => .error (.type_error 302)

/-- The conversion `get<double>()`: numbers only, `type_error.302` otherwise. -/
def get_double : Json → Except Exn ℚ
  | num_int i => .ok (i : ℚ)
  | num_float q => .ok q
  | _ => .error (.type_error 302)

/-- The conversion `get<int>()`: numbers and booleans are cast to `int`,
`type_error.302` otherwise. (For a `double` outside the `int` range the C++
cast is undefined; the model reduces it like the integer cast.) -/
def get_int : Json → Except Exn Int
  | num_int i => .ok (toInt32 i)
  | num_float q => .ok (toInt32 (truncQ q))
  | bool b => .ok (if b then 1 else 0)
  | _ => .error (.type_error 302)

/-- The call `j.value(key, default)` with a conversion `get`: on an object the
converted member when the key is found and the default when it is not; on
anything else, `null` included, `type_error.306`. -/
def value {α : Type} (get : Json → Except Exn α) (j : Json) (key : String)
    (default_value : α) : Except Exn α :=
  match j with
  | obj members =>
    match find key members with
    | some v => get v
    | none => .ok default_value
  | _ => .error (.type_error 306)

/-- Overwrite the member `key` of an object's member list, or add it. -/
def store (key : String) (v : Json) : List (String × Json) → List (String × Json)
  | [] => [(key, v)]
  | (k', v') :: rest => if k' = key then (k', v) :: rest else (k', v') :: store key v rest

/-- The non-const `j[key]`: the pair of `j` after the call and the element
referred to. `null` becomes an object; a key that is not found is added with a
`null` value; on a non-object `type_error.305`. -/
def at_key (j : Json) (key : String) : Except Exn (Json × Json) :=
  match j with
  | null => .ok (obj [(key, null)], null)
  | obj members =>
    match find key members with
    | some v => .ok (obj members, v)
    | none => .ok (obj (store key null members), null)
  | _ => .error (.type_error 305)

/-- The non-const `j[idx]`: the pair of `j` after the call and the element
referred to. `null` becomes an array; an array shorter than `idx + 1` is filled
up with `null`; on a non-array `type_error.305`. -/
def at_idx (j : Json) (idx : Nat) : Except Exn (Json × Json) :=
  match j with
  | null => .ok (arr (List.replicate (idx + 1) null), null)
  | arr elems =>
    match elems.get? idx with
    | some v => .ok (arr elems, v)
    | none => .ok (arr (elems ++ List.replicate (idx + 1 - elems.length) null), null)
  | _ => .error (.type_error 305)

/-- The expression `j[key][idx]`: `j` after both calls (the inner element
written back under `key`) and the element referred to. -/
def at_key_idx (j : Json) (key : String) (idx : Nat) : Except Exn (Json × Json) :=
  match at_key j key with
  | .error e => .error e
  | .ok (j1, inner) =>
    match at_idx inner idx with
    | .error e => .error e
    | .ok (inner1, elem) =>
      match j1 with
      | obj members => .ok (obj (store key inner1 members), elem)
      | other => .ok (other, elem)

/-- The expression `j[key].value(field, default)` on `j`: the value it yields
or the exception it throws. -/
def key_value {α : Type} (get : Json → Except Exn α) (j : Json) (key field : String)
    (default_value : α) : Except Exn α :=
  match at_key j key with
  | .error e => .error e
  | .ok (_, m) => value get m field default_value

/-- The expression `j[key][idx].value(field, default)` on `j`: the value it
yields or the exception it throws. -/
def key_idx_value {α : Type} (get : Json → Except Exn α) (j : Json) (key : String)
    (idx : Nat) (field : String) (default_value : α) : Except Exn α :=
  match at_key_idx j key idx with
  | .error e => .error e
  | .ok (_, elem) => value get elem field default_value

end Json

/-! ## `WeatherData` -/

/-- The class `WeatherData`, fields in declaration order. -/
structure WeatherData where
  city : String
  temperature : ℚ
  feels_like : ℚ
  humidity : Int
  pressure : Int
  description : String
  main : String
  wind_speed : ℚ
  valid : Bool
  deriving DecidableEq

namespace WeatherData

/-- The constructor `WeatherData()`: strings empty, numbers 0, `valid(false)`. -/
def init : WeatherData :=
  ⟨"", 0, 0, 0, 0, "", "", 0, false⟩

def setCity (w : WeatherData) (c : String) : WeatherData := { w with city := c }
def setTemperature (w : WeatherData) (t : ℚ) : WeatherData := { w with temperature := t }
def setFeelsLike (w : WeatherData) (f : ℚ) : WeatherData := { w with feels_like := f }
def setHumidity (w : WeatherData) (h : Int) : WeatherData := { w with humidity := h }
def setPressure (w : WeatherData) (p : Int) : WeatherData := { w with pressure := p }
def setDescription (w : WeatherData) (d : String) : WeatherData := { w with description := d }
def setMain (w : WeatherData) (m : String) : WeatherData := { w with main := m }
def setWindSpeed (w : WeatherData) (s : ℚ) : WeatherData := { w with wind_speed := s }
def setValid (w : WeatherData) (v : Bool) : WeatherData := { w with valid := v }

end WeatherData

/-! ## `parseWeatherDataConcise` -/

/-- The function `parseWeatherDataConcise`. Each `match` is one place where the
`try` block can throw; its `.error` arm is the `catch (...)` handler, which runs
on the report as the setters executed so far have left it. -/
def parseWeatherDataConcise (parse : String → Except Exn Json) (jsonResponse : String) :
    WeatherData :=
  let weather := WeatherData.init
  match parse jsonResponse with
  | .error _ => weather.setValid false
  | .ok j =>
  match j.value Json.get_string "name" "Unknown City" with
  | .error _ => weather.setValid false
  | .ok c =>
  let weather := weather.setCity c
  match j.at_key "main" with
  | .error _ => weather.setValid false
  | .ok (j, m) =>
  match m.value Json.get_double "temp" 0 with
  | .error _ => weather.setValid false
  | .ok t =>
  let weather := weather.setTemperature (t - 273.15)
  match j.at_key "main" with
  | .error _ => weather.setValid false
  | .ok (j, m) =>
  match m.value Json.get_double "feels_like" 0 with
  | .error _ => weather.setValid false
  | .ok f =>
  let weather := weather.setFeelsLike (f - 273.15)
  match j.at_key "main" with
  | .error _ => weather.setValid false
  | .ok (j, m) =>
  match m.value Json.get_int "humidity" 0 with
  | .error _ => weather.setValid false
  | .ok h =>
  let weather := weather.setHumidity h
  match j.at_key "main" with
  | .error _ => weather.setValid false
  | .ok (j, m) =>
  match m.value Json.get_int "pressure" 0 with
  | .error _ => weather.setValid false
  | .ok p =>
  let weather := weather.setPressure p
  match j.at_key_idx "weather" 0 with
  | .error _ => weather.setValid false
  | .ok (j, e) =>
  match e.value Json.get_string "main" "Unknown" with
  | .error _ => weather.setValid false
  | .ok wm =>
  let weather := weather.setMain wm
  match j.at_key_idx "weather" 0 with
  | .error _ => weather.setValid false
  | .ok (j, e) =>
  match e.value Json.get_string "description" "No description" with
  | .error _ => weather.setValid false
  | .ok d =>
  let weather := weather.setDescription d
  match j.at_key "wind" with
  | .error _ => weather.setValid false
  | .ok (_, wd) =>
  match wd.value Json.get_double "speed" 0 with
  | .error _ => weather.setValid false
  | .ok s =>
  let weather := weather.setWindSpeed s
  weather.setValid true

/-! ## Console and network effects -/

/-- One observable effect: a line written to `std::cout` or `std::cerr`
(what one statement ending in `std::endl` writes), or the transfer that
`curl_easy_perform` runs, with the options set on the handle. -/
inductive Event where
  | cout (line : String)
  | cerr (line : String)
  | http_get (url : String) (timeout_s : Nat) (follow_location : Bool)
  deriving DecidableEq

/-- What `curl_easy_perform` leaves behind: the `CURLcode` (`0` is `CURLE_OK`),
the body that `write_callback` has appended to `response`, and the status that
`CURLINFO_RESPONSE_CODE` reports. -/
structure Transfer where
  res : Nat
  response : String
  response_code : Int

/-- The libcurl calls of the program: whether `curl_easy_init` returns a
handle, the outcome of `curl_easy_perform` for a URL, and `curl_easy_strerror`. -/
structure Curl where
  easy_init : Bool
  easy_perform : String → Transfer
  easy_strerror : Nat → String

/-! ## `displayWeather` -/

/-- The row of 47 `=` characters that frames the report. -/
def rule_eq : String := String.mk (List.replicate 47 '=')

/-- The row of 47 `-` characters that separates the report's parts. -/
def rule_dash : String := String.mk (List.replicate 47 '-')

/-- The function `displayWeather`: the lines it writes to `std::cout`.
`show_double` is the stream's formatting of a `double`. -/
def displayWeather (show_double : ℚ → String) (weather : WeatherData) : List Event :=
  if !weather.valid then
    [.cout "\x1b[1;31m[ERROR] \x1b[0;37mFailed to get weather data.\x1b[0m"]
  else
    [ .cout ("\x1b[1;37m\n" ++ rule_eq),
      .cout "\x1b[1;36m    W E A T H E R   S C A N   v1.0\x1b[1;37m",
      .cout (rule_eq ++ "\x1b[0m"),
      .cout ("\x1b[0;90m>> \x1b[1;33mLocation\x1b[0;37m........: " ++ weather.city),
      .cout ("\x1b[0;90m" ++ rule_dash),
      .cout ("\x1b[0;90m>> \x1b[0;37mWeather.........: \x1b[1;36m" ++ weather.main
        ++ " (" ++ weather.description ++ ")\x1b[0m"),
      .cout ("\x1b[0;90m>> \x1b[0;37mTemperature.....: \x1b[1;31m"
        ++ show_double weather.temperature ++ "  C\x1b[0m"),
      .cout ("\x1b[0;90m>> \x1b[0;37mFeels Like......: \x1b[1;35m"
        ++ show_double weather.feels_like ++ "  C\x1b[0m"),
      .cout ("\x1b[0;90m>> \x1b[0;37mHumidity........: \x1b[1;34m"
        ++ toString weather.humidity ++ " %\x1b[0m"),
      .cout ("\x1b[0;90m>> \x1b[0;37mPressure........: \x1b[1;33m"
        ++ toString weather.pressure ++ " hPa\x1b[0m"),
      .cout ("\x1b[0;90m>> \x1b[0;37mWind Speed......: \x1b[1;32m"
        ++ show_double weather.wind_speed ++ " m/s\x1b[0m"),
      .cout ("\x1b[0;90m" ++ rule_dash),
      .cout "\x1b[1;32m[OK] \x1b[0;37mScan completed successfully.\x1b[0m",
      .cout ("\x1b[1;37m" ++ rule_eq ++ "\x1b[0m\n") ]

/-! ## `fetchWeatherData` -/

/-- The function `fetchWeatherData`: the report it returns and the effects it
has, in order. -/
def fetchWeatherData (parse : String → Except Exn Json) (curl : Curl)
    (cityName API_KEY : String) : WeatherData × List Event :=
  let weather := WeatherData.init
  let url := "https://api.openweathermap.org/data/2.5/weather?q=" ++ cityName
    ++ "&appid=" ++ API_KEY
  if curl.easy_init then
    let log := [Event.cout ("Fetching weather data for " ++ cityName ++ "..."),
      Event.http_get url 30 true]
    let t := curl.easy_perform url
    if t.res = 0 then
      if t.response_code = 200 then
        (parseWeatherDataConcise parse t.response, log)
      else if t.response_code = 404 then
        (weather, log ++ [.cout "City not found! Please check the spelling."])
      else
        (weather, log ++ [.cout ("API Error. HTTP Code: " ++ toString t.response_code),
          .cout ("Response: " ++ t.response)])
    else
      (weather, log ++ [.cerr ("Request failed: " ++ curl.easy_strerror t.res)])
  else
    (weather, [])

/-! ## `main` -/

/-- The function `main`: the exit status and the effects of a run. `getenv` is
the environment, `argv` the argument vector (`argc` is its length). The calls
`curl_global_init` and `curl_global_cleanup` have no effect that is observed. -/
def main (getenv : String → Option String) (argv : List String)
    (parse : String → Except Exn Json) (curl : Curl) (show_double : ℚ → String) :
    Int × List Event :=
  match getenv "API_KEY" with
  | none => (1, [.cerr "[ERROR] API key not found in environment variables."])
  | some env_apiKey =>
    if argv.length < 2 then
      (1, [.cerr "[ERROR] Please provide a city name as a command-line argument."])
    else
      let apiKey := env_apiKey
      let cityName := argv.getD 1 ""
      let fetched := fetchWeatherData parse curl cityName apiKey
      (0, fetched.2 ++ displayWeather show_double fetched.1)

/-! ## Sample inputs -/

/-- A stand-in for `json::parse` that reads the one text `body` as the value
`j` and rejects every other text. -/
def parse_only (body : String) (j : Json) : String → Except Exn Json :=
  fun s => if s = body then .ok j else .error .parse_error

/-- A libcurl stand-in whose transfer succeeds with status `code` and body `body`. -/
def curl_status (code : Int) (body : String) : Curl :=
  ⟨true, fun _ => ⟨0, body, code⟩, fun _ => "error"⟩

/-- The `main` object of the full sample body. -/
def main_full : List (String × Json) :=
  [("temp", .num_float 300), ("feels_like", .num_float 299.15), ("humidity", .num_int 81),
   ("pressure", .num_int 1012)]

/-- The first `weather` element of the full sample body. -/
def weather0_full : List (String × Json) :=
  [("main", .str "Rain"), ("description", .str "light rain")]

/-- The `wind` object of the full sample body. -/
def wind_full : List (String × Json) :=
  [("speed", .num_float 4.1)]

/-- The JSON value of `body_full`. -/
def members_full : List (String × Json) :=
  [("name", .str "London"), ("main", .obj main_full),
   ("weather", .arr [.obj weather0_full]), ("wind", .obj wind_full)]

/-- A full, well-formed response body. -/
def body_full : String :=
  "\x7b\"name\":\"London\",\"main\":\x7b\"temp\":300.0,\"feels_like\":299.15,\"humidity\":81,\"pressure\":1012\x7d,\"weather\":[\x7b\"main\":\"Rain\",\"description\":\"light rain\"\x7d],\"wind\":\x7b\"speed\":4.1\x7d\x7d"

/-- The `main` object of `body_huge`: the humidity does not fit an `int`. -/
def main_huge : List (String × Json) :=
  [("temp", .num_float 300), ("feels_like", .num_float 299.15),
   ("humidity", .num_int 4294967296), ("pressure", .num_int 1012)]

/-- The JSON value of `body_huge`. -/
def members_huge : List (String × Json) :=
  [("name", .str "London"), ("main", .obj main_huge),
   ("weather", .arr [.obj weather0_full]), ("wind", .obj wind_full)]

/-- The full sample body with `humidity` set to 4294967296. -/
def body_huge : String :=
  "\x7b\"name\":\"London\",\"main\":\x7b\"temp\":300.0,\"feels_like\":299.15,\"humidity\":4294967296,\"pressure\":1012\x7d,\"weather\":[\x7b\"main\":\"Rain\",\"description\":\"light rain\"\x7d],\"wind\":\x7b\"speed\":4.1\x7d\x7d"

/-- The JSON value of `body_temp_only`. -/
def members_temp_only : List (String × Json) :=
  [("main", .obj [("temp", .num_float 300)])]

/-- A body that holds `main.temp` and nothing else. -/
def body_temp_only : String := "\x7b\"main\":\x7b\"temp\":300.0\x7d\x7d"

/-- The JSON value of `body_name5_temp`. -/
def members_name5_temp : List (String × Json) :=
  [("name", .num_int 5), ("main", .obj [("temp", .num_float 300)])]

/-- A body with a numeric `name` and `main.temp`. -/
def body_name5_temp : String := "\x7b\"name\":5,\"main\":\x7b\"temp\":300.0\x7d\x7d"

/-- The JSON value of `body_bare`. -/
def members_bare : List (String × Json) :=
  [("main", .obj []), ("weather", .arr [.obj []]), ("wind", .obj [])]

/-- A body whose three sections are present and empty. -/
def body_bare : String := "\x7b\"main\":\x7b\x7d,\"weather\":[\x7b\x7d],\"wind\":\x7b\x7d\x7d"

/-- The JSON value of `body_name5_bare`. -/
def members_name5_bare : List (String × Json) :=
  [("name", .num_int 5), ("main", .obj []), ("weather", .arr [.obj []]), ("wind", .obj [])]

/-- The body `body_bare` with a numeric `name` added. -/
def body_name5_bare : String :=
  "\x7b\"name\":5,\"main\":\x7b\x7d,\"weather\":[\x7b\x7d],\"wind\":\x7b\x7d\x7d"

/-- The JSON value of `body_london_only`. -/
def members_london_only : List (String × Json) :=
  [("name", .str "London")]

/-- A body that holds a `name` and nothing else. -/
def body_london_only : String := "\x7b\"name\":\"London\"\x7d"

/-! ## Lemmas on the JSON accessors -/

theorem Json.store_find_self (k : String) (v : Json) (ms : List (String × Json))
    (h : Json.find k ms = some v) : Json.store k v ms = ms := by
  induction ms with
  | nil => simp [Json.find] at h
  | cons kv rest ih =>
    obtain ⟨k1, v1⟩ := kv
    by_cases hk : k1 = k
    · simp [Json.find, hk] at h
      simp [Json.store, hk, h]
    · simp [Json.find, hk] at h
      simp [Json.store, hk, ih h]

theorem Json.at_key_found (k : String) (v : Json) (ms : List (String × Json))
    (h : Json.find k ms = some v) : Json.at_key (.obj ms) k = .ok (.obj ms, v) := by
  simp [Json.at_key, h]

theorem Json.at_key_idx_found (k : String) (e : Json) (es : List Json)
    (ms : List (String × Json)) (h : Json.find k ms = some (.arr (e :: es))) :
    Json.at_key_idx (.obj ms) k 0 = .ok (.obj ms, e) := by
  simp [Json.at_key_idx, Json.at_key, h, Json.at_idx, Json.store_find_self k _ ms h]

theorem Json.value_ok_obj {α : Type} (get : Json → Except Exn α) (j : Json) (k : String)
    (d x : α) (h : Json.value get j k d = .ok x) : ∃ ms, j = .obj ms := by
  cases j <;> simp [Json.value] at h
  exact ⟨_, rfl⟩

theorem Json.at_key_obj_elem (k : String) (ms mm : List (String × Json)) (j1 : Json)
    (h : Json.at_key (.obj ms) k = .ok (j1, .obj mm)) :
    Json.find k ms = some (.obj mm) ∧ j1 = .obj ms := by
  unfold Json.at_key at h
  cases hf : Json.find k ms with
  | none => simp [hf] at h
  | some v =>
    simp [hf] at h
    simp [h.1, h.2]

theorem Json.at_key_idx_obj_elem (k : String) (ms em : List (String × Json)) (j1 : Json)
    (h : Json.at_key_idx (.obj ms) k 0 = .ok (j1, .obj em)) :
    (∃ rest, Json.find k ms = some (.arr (.obj em :: rest))) ∧ j1 = .obj ms := by
  unfold Json.at_key_idx Json.at_key at h
  cases hf : Json.find k ms with
  | none => simp [hf, Json.at_idx] at h
  | some v =>
    cases v with
    | arr elems =>
      cases elems with
      | nil => simp [hf, Json.at_idx] at h
      | cons e rest =>
        simp [hf, Json.at_idx] at h
        refine ⟨⟨rest, ?_⟩, ?_⟩
        · rw [h.2]
        · rw [← h.1, Json.store_find_self k _ ms hf]
    | null => simp [hf, Json.at_idx] at h
    | bool b => simp [hf, Json.at_idx] at h
    | num_int i => simp [hf, Json.at_idx] at h
    | num_float q => simp [hf, Json.at_idx] at h
    | str s => simp [hf, Json.at_idx] at h
    | obj o => simp [hf, Json.at_idx] at h

theorem Json.value_of_convertible {α : Type} (get : Json → Except Exn α)
    (m : List (String × Json)) (k : String) (d : α)
    (h : ∀ v, Json.find k m = some v → ∃ x, get v = .ok x) :
    ∃ x, Json.value get (.obj m) k d = .ok x ∧ (Json.find k m = none → x = d) ∧
      (∀ v, Json.find k m = some v → get v = .ok x) := by
  cases hf : Json.find k m with
  | none => exact ⟨d, by simp [Json.value, hf], fun _ => rfl, by simp⟩
  | some v =>
    obtain ⟨x, hx⟩ := h v hf
    refine ⟨x, by simp [Json.value, hf, hx], by simp, ?_⟩
    intro v2 hv2
    cases hv2
    exact hx

theorem Json.get_string_of_is_string (v : Json) (h : v.is_string = true) :
    ∃ x, Json.get_string v = .ok x := by
  cases v <;> simp [Json.is_string] at h
  exact ⟨_, rfl⟩

theorem Json.get_double_of_is_number (v : Json) (h : v.is_number = true) :
    ∃ x, Json.get_double v = .ok x := by
  cases v <;> simp [Json.is_number] at h
  · exact ⟨_, rfl⟩
  · exact ⟨_, rfl⟩

theorem Json.get_int_of_number_or_boolean (v : Json)
    (h : (v.is_number || v.is_boolean) = true) : ∃ x, Json.get_int v = .ok x := by
  cases v <;> simp [Json.is_number, Json.is_boolean] at h
  · exact ⟨_, rfl⟩
  · exact ⟨_, rfl⟩
  · exact ⟨_, rfl⟩

theorem Json.get_double_of_number (v : Json) (q : ℚ) (h : v.number? = some q) :
    Json.get_double v = .ok q := by
  cases v <;> simp [Json.number?] at h
  · simp [Json.get_double, h]
  · simp [Json.get_double, h]

theorem Json.value_number (m : List (String × Json)) (k : String) (d q : ℚ)
    (h : (Json.find k m).bind Json.number? = some q) :
    Json.value Json.get_double (.obj m) k d = .ok q := by
  cases hf : Json.find k m with
  | none => simp [hf] at h
  | some v =>
    simp [hf] at h
    simp [Json.value, hf, Json.get_double_of_number v q h]

theorem toInt32_of_range (i : Int) (hlo : -2147483648 ≤ i) (hhi : i < 2147483648) :
    toInt32 i = i := by
  unfold toInt32
  omega

theorem Json.at_key_obj_ok (k : String) (ms : List (String × Json)) :
    ∃ j1 m, Json.at_key (.obj ms) k = .ok (j1, m) := by
  cases hf : Json.find k ms with
  | none => exact ⟨_, _, by simp [Json.at_key, hf]; exact ⟨rfl, rfl⟩⟩
  | some v => exact ⟨_, _, by simp [Json.at_key, hf]; exact ⟨rfl, rfl⟩⟩

theorem Json.at_key_same_of_value {α : Type} (get : Json → Except Exn α) (k f : String)
    (d x : α) (ms : List (String × Json)) (j1 m : Json)
    (hk : Json.at_key (.obj ms) k = .ok (j1, m)) (hv : Json.value get m f d = .ok x) :
    j1 = .obj ms := by
  obtain ⟨mm, rfl⟩ := Json.value_ok_obj get m f d x hv
  exact (Json.at_key_obj_elem k ms mm j1 hk).2

theorem Json.at_key_idx_same_of_value {α : Type} (get : Json → Except Exn α) (k f : String)
    (d x : α) (ms : List (String × Json)) (j1 el : Json)
    (hk : Json.at_key_idx (.obj ms) k 0 = .ok (j1, el)) (hv : Json.value get el f d = .ok x) :
    j1 = .obj ms := by
  obtain ⟨em, rfl⟩ := Json.value_ok_obj get el f d x hv
  exact (Json.at_key_idx_obj_elem k ms em j1 hk).2

/-! ## Lemmas on `parseWeatherDataConcise` -/

/-- The report of a run in which no step throws. -/
theorem parse_ok_report (parse : String → Except Exn Json) (body : String)
    (ms mm em wm : List (String × Json)) (rest : List Json)
    (c wmn d : String) (t f s : ℚ) (h p : Int)
    (hp : parse body = .ok (.obj ms))
    (hmain : Json.find "main" ms = some (.obj mm))
    (hweather : Json.find "weather" ms = some (.arr (.obj em :: rest)))
    (hwind : Json.find "wind" ms = some (.obj wm))
    (hc : Json.value Json.get_string (.obj ms) "name" "Unknown City" = .ok c)
    (ht : Json.value Json.get_double (.obj mm) "temp" 0 = .ok t)
    (hf : Json.value Json.get_double (.obj mm) "feels_like" 0 = .ok f)
    (hh : Json.value Json.get_int (.obj mm) "humidity" 0 = .ok h)
    (hpr : Json.value Json.get_int (.obj mm) "pressure" 0 = .ok p)
    (hwm : Json.value Json.get_string (.obj em) "main" "Unknown" = .ok wmn)
    (hd : Json.value Json.get_string (.obj em) "description" "No description" = .ok d)
    (hs : Json.value Json.get_double (.obj wm) "speed" 0 = .ok s) :
    parseWeatherDataConcise parse body
      = ⟨c, t - 273.15, f - 273.15, h, p, d, wmn, s, true⟩ := by
  simp only [parseWeatherDataConcise, hp, hc, Json.at_key_found _ _ _ hmain, ht, hf, hh, hpr,
    Json.at_key_idx_found _ _ _ _ hweather, hwm, hd, Json.at_key_found _ _ _ hwind, hs]
  rfl

/-- A valid report comes only from a run in which no step throws: the body is an
object, `main` and `wind` are objects, `weather` starts with an object, and each
of the eight extractions converts. -/
theorem valid_report_structure (parse : String → Except Exn Json) (body : String)
    (hv : (parseWeatherDataConcise parse body).valid = true) :
    ∃ (ms mm em wm : List (String × Json)) (rest : List Json)
      (c wmn d : String) (t f s : ℚ) (h p : Int),
      parse body = .ok (.obj ms) ∧
      Json.find "main" ms = some (.obj mm) ∧
      Json.find "weather" ms = some (.arr (.obj em :: rest)) ∧
      Json.find "wind" ms = some (.obj wm) ∧
      Json.value Json.get_string (.obj ms) "name" "Unknown City" = .ok c ∧
      Json.value Json.get_double (.obj mm) "temp" 0 = .ok t ∧
      Json.value Json.get_double (.obj mm) "feels_like" 0 = .ok f ∧
      Json.value Json.get_int (.obj mm) "humidity" 0 = .ok h ∧
      Json.value Json.get_int (.obj mm) "pressure" 0 = .ok p ∧
      Json.value Json.get_string (.obj em) "main" "Unknown" = .ok wmn ∧
      Json.value Json.get_string (.obj em) "description" "No description" = .ok d ∧
      Json.value Json.get_double (.obj wm) "speed" 0 = .ok s := by
  unfold parseWeatherDataConcise at hv
  split at hv
  · simp [WeatherData.setValid] at hv
  rename_i j hj
  split at hv
  · simp [WeatherData.setValid] at hv
  rename_i c hc
  obtain ⟨ms, rfl⟩ := Json.value_ok_obj _ _ _ _ _ hc
  have hmain : ∃ mm, Json.find "main" ms = some (.obj mm) := by
    cases hm : Json.find "main" ms with
    | none => simp [Json.at_key, hm, Json.value, WeatherData.setValid] at hv
    | some v =>
      cases v <;> first
        | exact ⟨_, rfl⟩
        | simp [Json.at_key, hm, Json.value, WeatherData.setValid] at hv
  obtain ⟨mm, hmain⟩ := hmain
  simp only [Json.at_key_found _ _ _ hmain] at hv
  split at hv
  · simp [WeatherData.setValid] at hv
  rename_i t ht
  split at hv
  · simp [WeatherData.setValid] at hv
  rename_i f hf
  split at hv
  · simp [WeatherData.setValid] at hv
  rename_i h hh
  split at hv
  · simp [WeatherData.setValid] at hv
  rename_i p hpr
  have hweather : ∃ em rest, Json.find "weather" ms = some (.arr (.obj em :: rest)) := by
    cases hw : Json.find "weather" ms with
    | none =>
      simp [Json.at_key_idx, Json.at_key, Json.at_idx, hw, Json.value,
        WeatherData.setValid] at hv
    | some v =>
      cases v with
      | arr elems =>
        cases elems with
        | nil =>
          simp [Json.at_key_idx, Json.at_key, Json.at_idx, hw, Json.value,
            WeatherData.setValid] at hv
        | cons e rest =>
          cases e <;> first
            | exact ⟨_, _, rfl⟩
            | simp [Json.at_key_idx, Json.at_key, Json.at_idx, hw, Json.value,
                WeatherData.setValid] at hv
      | null =>
        simp [Json.at_key_idx, Json.at_key, Json.at_idx, hw, Json.value,
          WeatherData.setValid] at hv
      | bool b =>
        simp [Json.at_key_idx, Json.at_key, Json.at_idx, hw, WeatherData.setValid] at hv
      | num_int i =>
        simp [Json.at_key_idx, Json.at_key, Json.at_idx, hw, WeatherData.setValid] at hv
      | num_float q =>
        simp [Json.at_key_idx, Json.at_key, Json.at_idx, hw, WeatherData.setValid] at hv
      | str s =>
        simp [Json.at_key_idx, Json.at_key, Json.at_idx, hw, WeatherData.setValid] at hv
      | obj o =>
        simp [Json.at_key_idx, Json.at_key, Json.at_idx, hw, WeatherData.setValid] at hv
  obtain ⟨em, rest, hweather⟩ := hweather
  simp only [Json.at_key_idx_found _ _ _ _ hweather] at hv
  split at hv
  · simp [WeatherData.setValid] at hv
  rename_i wmn hwm
  split at hv
  · simp [WeatherData.setValid] at hv
  rename_i d hd
  have hwind : ∃ wm, Json.find "wind" ms = some (.obj wm) := by
    cases hw : Json.find "wind" ms with
    | none => simp [Json.at_key, hw, Json.value, WeatherData.setValid] at hv
    | some v =>
      cases v <;> first
        | exact ⟨_, rfl⟩
        | simp [Json.at_key, hw, Json.value, WeatherData.setValid] at hv
  obtain ⟨wm, hwind⟩ := hwind
  simp only [Json.at_key_found _ _ _ hwind] at hv
  split at hv
  · simp [WeatherData.setValid] at hv
  rename_i s hs
  exact ⟨ms, mm, em, wm, rest, c, wmn, d, t, f, s, h, p, hj, hmain, hweather, hwind, hc, ht,
    hf, hh, hpr, hwm, hd, hs⟩

/-! ## The claims -/

/-- C1 (amended): on a successful transfer with status 200, `fetchWeatherData`
returns `parseWeatherDataConcise` of the body; for a body with a string `name`,
numeric `main.temp` and `main.feels_like`, integer `main.humidity` and
`main.pressure` within the range of `int`, string `weather[0].main` and
`weather[0].description` and numeric `wind.speed`, that report is valid and
every field is the source value, the temperatures less 273.15. -/
theorem fetch_200_full_body (parse : String → Except Exn Json) (curl : Curl)
    (cityName API_KEY body : String) (ms mm em wm : List (String × Json)) (rest : List Json)
    (name wmain wdesc : String) (t f s : ℚ) (h p : Int)
    (hinit : curl.easy_init = true)
    (hres : (curl.easy_perform ("https://api.openweathermap.org/data/2.5/weather?q="
      ++ cityName ++ "&appid=" ++ API_KEY)).res = 0)
    (hcode : (curl.easy_perform ("https://api.openweathermap.org/data/2.5/weather?q="
      ++ cityName ++ "&appid=" ++ API_KEY)).response_code = 200)
    (hbody : (curl.easy_perform ("https://api.openweathermap.org/data/2.5/weather?q="
      ++ cityName ++ "&appid=" ++ API_KEY)).response = body)
    (hp : parse body = .ok (.obj ms))
    (hname : Json.find "name" ms = some (.str name))
    (hmain : Json.find "main" ms = some (.obj mm))
    (htemp : (Json.find "temp" mm).bind Json.number? = some t)
    (hfeels : (Json.find "feels_like" mm).bind Json.number? = some f)
    (hhum : Json.find "humidity" mm = some (.num_int h))
    (hhum_lo : -2147483648 ≤ h) (hhum_hi : h < 2147483648)
    (hpres : Json.find "pressure" mm = some (.num_int p))
    (hpres_lo : -2147483648 ≤ p) (hpres_hi : p < 2147483648)
    (hweather : Json.find "weather" ms = some (.arr (.obj em :: rest)))
    (hwmain : Json.find "main" em = some (.str wmain))
    (hwdesc : Json.find "description" em = some (.str wdesc))
    (hwind : Json.find "wind" ms = some (.obj wm))
    (hspeed : (Json.find "speed" wm).bind Json.number? = some s) :
    (fetchWeatherData parse curl cityName API_KEY).1 = parseWeatherDataConcise parse body ∧
    parseWeatherDataConcise parse body
      = ⟨name, t - 273.15, f - 273.15, h, p, wdesc, wmain, s, true⟩ := by
  constructor
  · simp [fetchWeatherData, hinit, hres, hcode, hbody]
  · apply parse_ok_report parse body ms mm em wm rest _ _ _ _ _ _ _ _ hp hmain hweather hwind
    · simp [Json.value, hname, Json.get_string]
    · exact Json.value_number mm "temp" 0 t htemp
    · exact Json.value_number mm "feels_like" 0 f hfeels
    · simp [Json.value, hhum, Json.get_int, toInt32_of_range h hhum_lo hhum_hi]
    · simp [Json.value, hpres, Json.get_int, toInt32_of_range p hpres_lo hpres_hi]
    · simp [Json.value, hwmain, Json.get_string]
    · simp [Json.value, hwdesc, Json.get_string]
    · exact Json.value_number wm "speed" 0 s hspeed

theorem fetch_200_full_body_witness :
    (fetchWeatherData (parse_only body_full (.obj members_full)) (curl_status 200 body_full)
        "London" "key").1
      = parseWeatherDataConcise (parse_only body_full (.obj members_full)) body_full ∧
    parseWeatherDataConcise (parse_only body_full (.obj members_full)) body_full
      = ⟨"London", 300 - 273.15, 299.15 - 273.15, 81, 1012, "light rain", "Rain", 4.1, true⟩ :=
  fetch_200_full_body (parse_only body_full (.obj members_full)) (curl_status 200 body_full)
    "London" "key" body_full members_full main_full weather0_full wind_full []
    "London" "Rain" "light rain" 300 299.15 4.1 81 1012 rfl rfl rfl rfl
    (by simp [parse_only]) (by simp [members_full, Json.find])
    (by simp [members_full, Json.find])
    (by simp [main_full, Json.find, Json.number?])
    (by simp [main_full, Json.find, Json.number?])
    (by simp [main_full, Json.find]) (by decide) (by decide)
    (by simp [main_full, Json.find]) (by decide) (by decide)
    (by simp [members_full, Json.find])
    (by simp [weather0_full, Json.find]) (by simp [weather0_full, Json.find])
    (by simp [members_full, Json.find])
    (by simp [wind_full, Json.find, Json.number?])

/-- C1 (counterexample): with `"humidity": 4294967296` in an otherwise full body
the report is valid and its humidity is 0, not the source integer. -/
theorem huge_humidity_is_reduced :
    Json.find "humidity" main_huge = some (.num_int 4294967296) ∧
    (fetchWeatherData (parse_only body_huge (.obj members_huge)) (curl_status 200 body_huge)
        "London" "key").1.valid = true ∧
    (fetchWeatherData (parse_only body_huge (.obj members_huge)) (curl_status 200 body_huge)
        "London" "key").1.humidity = 0 ∧
    (fetchWeatherData (parse_only body_huge (.obj members_huge)) (curl_status 200 body_huge)
        "London" "key").1.humidity ≠ 4294967296 := by
  have hr : (fetchWeatherData (parse_only body_huge (.obj members_huge))
      (curl_status 200 body_huge) "London" "key").1
      = ⟨"London", 300 - 273.15, 299.15 - 273.15, 0, 1012, "light rain", "Rain", 4.1, true⟩ := by
    have hf : (fetchWeatherData (parse_only body_huge (.obj members_huge))
        (curl_status 200 body_huge) "London" "key").1
        = parseWeatherDataConcise (parse_only body_huge (.obj members_huge)) body_huge := by
      simp [fetchWeatherData, curl_status]
    rw [hf]
    apply parse_ok_report _ body_huge members_huge main_huge weather0_full wind_full []
    · simp [parse_only]
    · simp [members_huge, Json.find]
    · simp [members_huge, Json.find]
    · simp [members_huge, Json.find]
    · simp [members_huge, Json.find, Json.value, Json.get_string]
    · simp [main_huge, Json.find, Json.value, Json.get_double]
    · simp [main_huge, Json.find, Json.value, Json.get_double]
    · simp [main_huge, Json.find, Json.value, Json.get_int, toInt32]
    · simp [main_huge, Json.find, Json.value, Json.get_int, toInt32]
    · simp [weather0_full, Json.find, Json.value, Json.get_string]
    · simp [weather0_full, Json.find, Json.value, Json.get_string]
    · simp [wind_full, Json.find, Json.value, Json.get_double]
  rw [hr]
  refine ⟨by simp [main_huge, Json.find], rfl, rfl, by decide⟩

/-- C2: on a text that `json::parse` rejects, `parseWeatherDataConcise` returns
a report (the function is total: the handler catches everything) and that
report has `valid = false`; it is the constructed report. -/
theorem malformed_json_gives_invalid (parse : String → Except Exn Json) (body : String)
    (e : Exn) (hbad : parse body = .error e) :
    (parseWeatherDataConcise parse body).valid = false ∧
      parseWeatherDataConcise parse body = WeatherData.init := by
  simp [parseWeatherDataConcise, hbad, WeatherData.setValid, WeatherData.init]

theorem malformed_json_gives_invalid_witness :
    (parseWeatherDataConcise (parse_only "[]" (.arr [])) "\x7b\"name\": \"Lon").valid = false ∧
      parseWeatherDataConcise (parse_only "[]" (.arr [])) "\x7b\"name\": \"Lon"
        = WeatherData.init :=
  malformed_json_gives_invalid (parse_only "[]" (.arr [])) "\x7b\"name\": \"Lon"
    .parse_error (by simp [parse_only])

/-- C3 (amended): for a JSON object body without a `name` key the report's city
is "Unknown City", also when a later extraction throws. -/
theorem missing_name_gives_unknown_city (parse : String → Except Exn Json) (body : String)
    (ms : List (String × Json)) (hp : parse body = .ok (.obj ms))
    (hname : Json.find "name" ms = none) :
    (parseWeatherDataConcise parse body).city = "Unknown City" := by
  simp only [parseWeatherDataConcise, hp, Json.value, hname]
  repeat' split
  all_goals simp [WeatherData.setValid, WeatherData.setCity, WeatherData.setTemperature,
    WeatherData.setFeelsLike, WeatherData.setHumidity, WeatherData.setPressure,
    WeatherData.setMain, WeatherData.setDescription, WeatherData.setWindSpeed, WeatherData.init]

theorem missing_name_gives_unknown_city_witness :
    (parseWeatherDataConcise (parse_only body_temp_only (.obj members_temp_only))
      body_temp_only).city = "Unknown City" :=
  missing_name_gives_unknown_city (parse_only body_temp_only (.obj members_temp_only))
    body_temp_only members_temp_only (by simp [parse_only])
    (by simp [members_temp_only, Json.find])

/-- C3 (counterexample): the body `[]` is JSON without a `name` key, and the
report's city is the empty string, not "Unknown City". -/
theorem array_body_city_is_empty :
    (parseWeatherDataConcise (parse_only "[]" (.arr [])) "[]").city = "" ∧
    (parseWeatherDataConcise (parse_only "[]" (.arr [])) "[]").city ≠ "Unknown City" := by
  have hr : parseWeatherDataConcise (parse_only "[]" (.arr [])) "[]" = WeatherData.init := by
    simp [parseWeatherDataConcise, parse_only, Json.value, WeatherData.setValid,
      WeatherData.init]
  rw [hr]
  exact ⟨rfl, by decide⟩

/-- C4 (amended): for a JSON object body whose `name` is absent or a string and
whose `main.temp` is the number 300, the report's temperature is 26.85. -/
theorem temp_300_gives_26_85 (parse : String → Except Exn Json) (body : String)
    (ms mm : List (String × Json)) (hp : parse body = .ok (.obj ms))
    (hname : ∀ v, Json.find "name" ms = some v → v.is_string = true)
    (hmain : Json.find "main" ms = some (.obj mm))
    (htemp : (Json.find "temp" mm).bind Json.number? = some 300) :
    (parseWeatherDataConcise parse body).temperature = 26.85 := by
  obtain ⟨c, hc, _, _⟩ := Json.value_of_convertible Json.get_string ms "name" "Unknown City"
    (fun v hv => Json.get_string_of_is_string v (hname v hv))
  have ht := Json.value_number mm "temp" 0 300 htemp
  simp only [parseWeatherDataConcise, hp, hc, Json.at_key_found _ _ _ hmain, ht]
  repeat' split
  all_goals simp [WeatherData.setValid, WeatherData.setCity, WeatherData.setTemperature,
    WeatherData.setFeelsLike, WeatherData.setHumidity, WeatherData.setPressure,
    WeatherData.setMain, WeatherData.setDescription, WeatherData.setWindSpeed, WeatherData.init]
  all_goals norm_num

theorem temp_300_gives_26_85_witness :
    (parseWeatherDataConcise (parse_only body_temp_only (.obj members_temp_only))
      body_temp_only).temperature = 26.85 :=
  temp_300_gives_26_85 (parse_only body_temp_only (.obj members_temp_only))
    body_temp_only members_temp_only [("temp", .num_float 300)] (by simp [parse_only])
    (by simp [members_temp_only, Json.find])
    (by simp [members_temp_only, Json.find])
    (by simp [Json.find, Json.number?])

/-- C4 (counterexample): with `"name": 5` before `"main": \x7b"temp": 300.0\x7d`
the city extraction throws first and the temperature stays 0, not 26.85. -/
theorem numeric_name_blocks_temperature :
    Json.find "main" members_name5_temp = some (.obj [("temp", .num_float 300)]) ∧
    (parseWeatherDataConcise (parse_only body_name5_temp (.obj members_name5_temp))
      body_name5_temp).temperature = 0 ∧
    (parseWeatherDataConcise (parse_only body_name5_temp (.obj members_name5_temp))
      body_name5_temp).temperature ≠ 26.85 := by
  have hr : parseWeatherDataConcise (parse_only body_name5_temp (.obj members_name5_temp))
      body_name5_temp = WeatherData.init := by
    simp [parseWeatherDataConcise, parse_only, members_name5_temp, Json.value, Json.find,
      Json.get_string, WeatherData.setValid, WeatherData.init]
  rw [hr]
  refine ⟨by simp [members_name5_temp, Json.find], rfl, ?_⟩
  simp [WeatherData.init]
  norm_num

/-- C5 (amended): for a JSON object body in which `main` and `wind` are objects
and the first element of the `weather` array is an object, and in which every
extracted field that is present has a type its extraction converts (strings for
`name`, `weather[0].main`, `weather[0].description`; numbers for `temp`,
`feels_like`, `speed`; numbers or booleans for `humidity`, `pressure`), the
report is valid, each absent field has its default, and each present field is
its converted value. -/
theorem object_body_defaults (parse : String → Except Exn Json) (body : String)
    (ms mm em wm : List (String × Json)) (rest : List Json)
    (hp : parse body = .ok (.obj ms))
    (hmain : Json.find "main" ms = some (.obj mm))
    (hweather : Json.find "weather" ms = some (.arr (.obj em :: rest)))
    (hwind : Json.find "wind" ms = some (.obj wm))
    (tname : ∀ v, Json.find "name" ms = some v → v.is_string = true)
    (ttemp : ∀ v, Json.find "temp" mm = some v → v.is_number = true)
    (tfeels : ∀ v, Json.find "feels_like" mm = some v → v.is_number = true)
    (thum : ∀ v, Json.find "humidity" mm = some v → (v.is_number || v.is_boolean) = true)
    (tpres : ∀ v, Json.find "pressure" mm = some v → (v.is_number || v.is_boolean) = true)
    (twmain : ∀ v, Json.find "main" em = some v → v.is_string = true)
    (twdesc : ∀ v, Json.find "description" em = some v → v.is_string = true)
    (tspeed : ∀ v, Json.find "speed" wm = some v → v.is_number = true) :
    (parseWeatherDataConcise parse body).valid = true ∧
    (Json.find "name" ms = none →
      (parseWeatherDataConcise parse body).city = "Unknown City") ∧
    (Json.find "temp" mm = none →
      (parseWeatherDataConcise parse body).temperature = 0 - 273.15) ∧
    (Json.find "feels_like" mm = none →
      (parseWeatherDataConcise parse body).feels_like = 0 - 273.15) ∧
    (Json.find "humidity" mm = none → (parseWeatherDataConcise parse body).humidity = 0) ∧
    (Json.find "pressure" mm = none → (parseWeatherDataConcise parse body).pressure = 0) ∧
    (Json.find "main" em = none → (parseWeatherDataConcise parse body).main = "Unknown") ∧
    (Json.find "description" em = none →
      (parseWeatherDataConcise parse body).description = "No description") ∧
    (Json.find "speed" wm = none → (parseWeatherDataConcise parse body).wind_speed = 0) ∧
    (∀ v, Json.find "name" ms = some v →
      Json.get_string v = .ok (parseWeatherDataConcise parse body).city) ∧
    (∀ v, Json.find "temp" mm = some v →
      Json.get_double v = .ok ((parseWeatherDataConcise parse body).temperature + 273.15)) ∧
    (∀ v, Json.find "feels_like" mm = some v →
      Json.get_double v = .ok ((parseWeatherDataConcise parse body).feels_like + 273.15)) ∧
    (∀ v, Json.find "humidity" mm = some v →
      Json.get_int v = .ok (parseWeatherDataConcise parse body).humidity) ∧
    (∀ v, Json.find "pressure" mm = some v →
      Json.get_int v = .ok (parseWeatherDataConcise parse body).pressure) ∧
    (∀ v, Json.find "main" em = some v →
      Json.get_string v = .ok (parseWeatherDataConcise parse body).main) ∧
    (∀ v, Json.find "description" em = some v →
      Json.get_string v = .ok (parseWeatherDataConcise parse body).description) ∧
    (∀ v, Json.find "speed" wm = some v →
      Json.get_double v = .ok (parseWeatherDataConcise parse body).wind_speed) := by
  obtain ⟨c, hc, c0, c1⟩ := Json.value_of_convertible Json.get_string ms "name" "Unknown City"
    (fun v hv => Json.get_string_of_is_string v (tname v hv))
  obtain ⟨t, ht, t0, t1⟩ := Json.value_of_convertible Json.get_double mm "temp" 0
    (fun v hv => Json.get_double_of_is_number v (ttemp v hv))
  obtain ⟨f, hf, f0, f1⟩ := Json.value_of_convertible Json.get_double mm "feels_like" 0
    (fun v hv => Json.get_double_of_is_number v (tfeels v hv))
  obtain ⟨h, hh, h0, h1⟩ := Json.value_of_convertible Json.get_int mm "humidity" 0
    (fun v hv => Json.get_int_of_number_or_boolean v (thum v hv))
  obtain ⟨p, hpr, p0, p1⟩ := Json.value_of_convertible Json.get_int mm "pressure" 0
    (fun v hv => Json.get_int_of_number_or_boolean v (tpres v hv))
  obtain ⟨wmn, hwm, m0, m1⟩ := Json.value_of_convertible Json.get_string em "main" "Unknown"
    (fun v hv => Json.get_string_of_is_string v (twmain v hv))
  obtain ⟨d, hd, d0, d1⟩ := Json.value_of_convertible Json.get_string em "description"
    "No description" (fun v hv => Json.get_string_of_is_string v (twdesc v hv))
  obtain ⟨s, hs, s0, s1⟩ := Json.value_of_convertible Json.get_double wm "speed" 0
    (fun v hv => Json.get_double_of_is_number v (tspeed v hv))
  rw [parse_ok_report parse body ms mm em wm rest c wmn d t f s h p hp hmain hweather hwind
    hc ht hf hh hpr hwm hd hs]
  refine ⟨rfl, ?_, ?_, ?_, ?_, ?_, ?_, ?_, ?_, ?_, ?_, ?_, ?_, ?_, ?_, ?_, ?_⟩
  · intro hn; exact c0 hn
  · intro hn; simp [t0 hn]
  · intro hn; simp [f0 hn]
  · intro hn; exact h0 hn
  · intro hn; exact p0 hn
  · intro hn; exact m0 hn
  · intro hn; exact d0 hn
  · intro hn; exact s0 hn
  · intro v hv; exact c1 v hv
  · intro v hv; simp [t1 v hv]
  · intro v hv; simp [f1 v hv]
  · intro v hv; exact h1 v hv
  · intro v hv; exact p1 v hv
  · intro v hv; exact m1 v hv
  · intro v hv; exact d1 v hv
  · intro v hv; exact s1 v hv

theorem object_body_defaults_witness :
    (parseWeatherDataConcise (parse_only body_bare (.obj members_bare)) body_bare).valid = true ∧
    (parseWeatherDataConcise (parse_only body_bare (.obj members_bare)) body_bare).city
      = "Unknown City" ∧
    (parseWeatherDataConcise (parse_only body_bare (.obj members_bare)) body_bare).temperature
      = 0 - 273.15 ∧
    (parseWeatherDataConcise (parse_only body_bare (.obj members_bare)) body_bare).feels_like
      = 0 - 273.15 ∧
    (parseWeatherDataConcise (parse_only body_bare (.obj members_bare)) body_bare).humidity = 0 ∧
    (parseWeatherDataConcise (parse_only body_bare (.obj members_bare)) body_bare).pressure = 0 ∧
    (parseWeatherDataConcise (parse_only body_bare (.obj members_bare)) body_bare).main
      = "Unknown" ∧
    (parseWeatherDataConcise (parse_only body_bare (.obj members_bare)) body_bare).description
      = "No description" ∧
    (parseWeatherDataConcise (parse_only body_bare (.obj members_bare)) body_bare).wind_speed
      = 0 := by
  obtain ⟨hv, hc, ht, hf, hh, hp, hm, hd, hs, _⟩ :=
    object_body_defaults (parse_only body_bare (.obj members_bare)) body_bare
      members_bare [] [] [] [] (by simp [parse_only])
      (by simp [members_bare, Json.find]) (by simp [members_bare, Json.find])
      (by simp [members_bare, Json.find])
      (by simp [members_bare, Json.find]) (by simp [Json.find]) (by simp [Json.find])
      (by simp [Json.find]) (by simp [Json.find]) (by simp [Json.find]) (by simp [Json.find])
      (by simp [Json.find])
  exact ⟨hv, hc (by simp [members_bare, Json.find]), ht (by simp [Json.find]),
    hf (by simp [Json.find]), hh (by simp [Json.find]), hp (by simp [Json.find]),
    hm (by simp [Json.find]), hd (by simp [Json.find]), hs (by simp [Json.find])⟩

/-- C5 (counterexample): with `"name": 5` in a body whose `main` and `wind`
are objects and whose `weather[0]` is an object, the report is not valid. -/
theorem numeric_name_gives_invalid :
    Json.find "main" members_name5_bare = some (.obj []) ∧
    Json.find "weather" members_name5_bare = some (.arr [.obj []]) ∧
    Json.find "wind" members_name5_bare = some (.obj []) ∧
    (parseWeatherDataConcise (parse_only body_name5_bare (.obj members_name5_bare))
      body_name5_bare).valid = false := by
  refine ⟨by simp [members_name5_bare, Json.find], by simp [members_name5_bare, Json.find],
    by simp [members_name5_bare, Json.find], ?_⟩
  simp [parseWeatherDataConcise, parse_only, members_name5_bare, Json.value, Json.find,
    Json.get_string, WeatherData.setValid, WeatherData.init]

/-- C6: when the transfer succeeds with HTTP status 404, `fetchWeatherData`
returns the default-constructed report (`valid = false`), its output is the
progress line followed by the "City not found" line, and the result is the same
for every parser: the body is not parsed. -/
theorem fetch_404_is_not_found (parse : String → Except Exn Json) (curl : Curl)
    (cityName API_KEY : String) (hinit : curl.easy_init = true)
    (hres : (curl.easy_perform ("https://api.openweathermap.org/data/2.5/weather?q="
      ++ cityName ++ "&appid=" ++ API_KEY)).res = 0)
    (hcode : (curl.easy_perform ("https://api.openweathermap.org/data/2.5/weather?q="
      ++ cityName ++ "&appid=" ++ API_KEY)).response_code = 404) :
    (fetchWeatherData parse curl cityName API_KEY).1 = WeatherData.init ∧
    (fetchWeatherData parse curl cityName API_KEY).1.valid = false ∧
    (fetchWeatherData parse curl cityName API_KEY).2
      = [.cout ("Fetching weather data for " ++ cityName ++ "..."),
         .http_get ("https://api.openweathermap.org/data/2.5/weather?q="
           ++ cityName ++ "&appid=" ++ API_KEY) 30 true,
         .cout "City not found! Please check the spelling."] ∧
    ∀ parse2 : String → Except Exn Json,
      fetchWeatherData parse2 curl cityName API_KEY
        = fetchWeatherData parse curl cityName API_KEY := by
  simp [fetchWeatherData, hinit, hres, hcode, WeatherData.init]

theorem fetch_404_is_not_found_witness :
    (fetchWeatherData (parse_only body_full (.obj members_full)) (curl_status 404 body_full)
        "Londno" "key").1.valid = false ∧
    (parseWeatherDataConcise (parse_only body_full (.obj members_full)) body_full).valid
      = true := by
  refine ⟨(fetch_404_is_not_found (parse_only body_full (.obj members_full))
    (curl_status 404 body_full) "Londno" "key" rfl rfl rfl).2.1, ?_⟩
  rw [parse_ok_report _ body_full members_full main_full weather0_full wind_full []
    "London" "Rain" "light rain" 300 299.15 4.1 81 1012]
  · simp [parse_only]
  · simp [members_full, Json.find]
  · simp [members_full, Json.find]
  · simp [members_full, Json.find]
  · simp [members_full, Json.find, Json.value, Json.get_string]
  · simp [main_full, Json.find, Json.value, Json.get_double]
  · simp [main_full, Json.find, Json.value, Json.get_double]
  · simp [main_full, Json.find, Json.value, Json.get_int, toInt32]
  · simp [main_full, Json.find, Json.value, Json.get_int, toInt32]
  · simp [weather0_full, Json.find, Json.value, Json.get_string]
  · simp [weather0_full, Json.find, Json.value, Json.get_string]
  · simp [wind_full, Json.find, Json.value, Json.get_double]

/-- C7: `main` exits with status 1 exactly when `API_KEY` is unset or
`argc < 2`, and with status 0 otherwise. With `API_KEY` unset the run is the one
`std::cerr` line "[ERROR] API key not found in environment variables."; with the
key set and `argc < 2` it is the one line "[ERROR] Please provide a city name as
a command-line argument."; an exit-1 run has no transfer and does not depend on
the parser or the network. An exit-0 run is `fetchWeatherData` on `argv[1]` and
the key, followed by `displayWeather` of its report. -/
theorem main_exit_status (getenv : String → Option String) (argv : List String)
    (parse : String → Except Exn Json) (curl : Curl) (show_double : ℚ → String) :
    ((main getenv argv parse curl show_double).1 = 1
      ↔ (getenv "API_KEY" = none ∨ argv.length < 2)) ∧
    (¬ (getenv "API_KEY" = none ∨ argv.length < 2)
      → (main getenv argv parse curl show_double).1 = 0) ∧
    (getenv "API_KEY" = none →
      main getenv argv parse curl show_double
        = (1, [.cerr "[ERROR] API key not found in environment variables."])) ∧
    (∀ key, getenv "API_KEY" = some key → argv.length < 2 →
      main getenv argv parse curl show_double
        = (1, [.cerr "[ERROR] Please provide a city name as a command-line argument."])) ∧
    (∀ key, getenv "API_KEY" = some key → ¬ argv.length < 2 →
      main getenv argv parse curl show_double
        = (0, (fetchWeatherData parse curl (argv.getD 1 "") key).2
            ++ displayWeather show_double
              (fetchWeatherData parse curl (argv.getD 1 "") key).1)) ∧
    ((main getenv argv parse curl show_double).1 = 1 →
      (∀ url t f, Event.http_get url t f ∉ (main getenv argv parse curl show_double).2) ∧
      (∀ line, Event.cout line ∉ (main getenv argv parse curl show_double).2) ∧
      ∀ (parse2 : String → Except Exn Json) (curl2 : Curl) (show2 : ℚ → String),
        main getenv argv parse2 curl2 show2 = main getenv argv parse curl show_double) := by
  unfold main
  cases hk : getenv "API_KEY" with
  | none => simp
  | some key =>
    by_cases hargc : argv.length < 2
    · simp [hargc]
    · simp [hargc]

theorem main_exit_status_witness :
    main (fun _ => some "key") ["weather"] (parse_only "[]" (.arr []))
        (curl_status 200 "[]") (fun _ => "?")
      = (1, [.cerr "[ERROR] Please provide a city name as a command-line argument."]) :=
  (main_exit_status (fun _ => some "key") ["weather"] (parse_only "[]" (.arr []))
    (curl_status 200 "[]") (fun _ => "?")).2.2.2.1 "key" rfl (by decide)

/-- C8: for a report with `valid = false`, `displayWeather` writes exactly one
line to `std::cout`, the fixed error banner, whatever the other fields hold. -/
theorem display_invalid_is_banner (show_double : ℚ → String) (weather : WeatherData)
    (hinv : weather.valid = false) :
    displayWeather show_double weather
      = [.cout "\x1b[1;31m[ERROR] \x1b[0;37mFailed to get weather data.\x1b[0m"] ∧
    ∀ (show_double2 : ℚ → String) (other : WeatherData), other.valid = false →
      displayWeather show_double2 other = displayWeather show_double weather := by
  constructor
  · simp [displayWeather, hinv]
  · intro sd other ho
    simp [displayWeather, hinv, ho]

theorem display_invalid_is_banner_witness :
    displayWeather (fun _ => "?") ⟨"London", 20, 19, 55, 1013, "light rain", "Rain", 3, false⟩
      = [.cout "\x1b[1;31m[ERROR] \x1b[0;37mFailed to get weather data.\x1b[0m"] :=
  (display_invalid_is_banner (fun _ => "?")
    ⟨"London", 20, 19, 55, 1013, "light rain", "Rain", 3, false⟩ rfl).1

/-- C9 (amended): when the report has `valid = false`, one step of the `try`
block threw, and the report is the constructed report with exactly the setters
before that step applied, in source order: nothing when `json::parse` or the
city extraction threw; otherwise the fields extracted before the step that threw
hold their extracted values and the fields from that step on hold their
constructed values; `wind_speed` is 0 in every case. -/
theorem invalid_report_is_stage (parse : String → Except Exn Json) (body : String)
    (hinv : (parseWeatherDataConcise parse body).valid = false) :
    (parseWeatherDataConcise parse body).wind_speed = 0 ∧
    ((∃ e, parse body = .error e ∧ parseWeatherDataConcise parse body = WeatherData.init) ∨
     ∃ j, parse body = .ok j ∧
      ((∃ e, Json.value Json.get_string j "name" "Unknown City" = .error e ∧
          parseWeatherDataConcise parse body = WeatherData.init) ∨
       (∃ c e, Json.value Json.get_string j "name" "Unknown City" = .ok c ∧
          Json.key_value Json.get_double j "main" "temp" 0 = .error e ∧
          parseWeatherDataConcise parse body = ⟨c, 0, 0, 0, 0, "", "", 0, false⟩) ∨
       (∃ c t e, Json.value Json.get_string j "name" "Unknown City" = .ok c ∧
          Json.key_value Json.get_double j "main" "temp" 0 = .ok t ∧
          Json.key_value Json.get_double j "main" "feels_like" 0 = .error e ∧
          parseWeatherDataConcise parse body
            = ⟨c, t - 273.15, 0, 0, 0, "", "", 0, false⟩) ∨
       (∃ c t f e, Json.value Json.get_string j "name" "Unknown City" = .ok c ∧
          Json.key_value Json.get_double j "main" "temp" 0 = .ok t ∧
          Json.key_value Json.get_double j "main" "feels_like" 0 = .ok f ∧
          Json.key_value Json.get_int j "main" "humidity" 0 = .error e ∧
          parseWeatherDataConcise parse body
            = ⟨c, t - 273.15, f - 273.15, 0, 0, "", "", 0, false⟩) ∨
       (∃ c t f h e, Json.value Json.get_string j "name" "Unknown City" = .ok c ∧
          Json.key_value Json.get_double j "main" "temp" 0 = .ok t ∧
          Json.key_value Json.get_double j "main" "feels_like" 0 = .ok f ∧
          Json.key_value Json.get_int j "main" "humidity" 0 = .ok h ∧
          Json.key_value Json.get_int j "main" "pressure" 0 = .error e ∧
          parseWeatherDataConcise parse body
            = ⟨c, t - 273.15, f - 273.15, h, 0, "", "", 0, false⟩) ∨
       (∃ c t f h p e, Json.value Json.get_string j "name" "Unknown City" = .ok c ∧
          Json.key_value Json.get_double j "main" "temp" 0 = .ok t ∧
          Json.key_value Json.get_double j "main" "feels_like" 0 = .ok f ∧
          Json.key_value Json.get_int j "main" "humidity" 0 = .ok h ∧
          Json.key_value Json.get_int j "main" "pressure" 0 = .ok p ∧
          Json.key_idx_value Json.get_string j "weather" 0 "main" "Unknown" = .error e ∧
          parseWeatherDataConcise parse body
            = ⟨c, t - 273.15, f - 273.15, h, p, "", "", 0, false⟩) ∨
       (∃ c t f h p m e, Json.value Json.get_string j "name" "Unknown City" = .ok c ∧
          Json.key_value Json.get_double j "main" "temp" 0 = .ok t ∧
          Json.key_value Json.get_double j "main" "feels_like" 0 = .ok f ∧
          Json.key_value Json.get_int j "main" "humidity" 0 = .ok h ∧
          Json.key_value Json.get_int j "main" "pressure" 0 = .ok p ∧
          Json.key_idx_value Json.get_string j "weather" 0 "main" "Unknown" = .ok m ∧
          Json.key_idx_value Json.get_string j "weather" 0 "description" "No description"
            = .error e ∧
          parseWeatherDataConcise parse body
            = ⟨c, t - 273.15, f - 273.15, h, p, "", m, 0, false⟩) ∨
       (∃ c t f h p m d e, Json.value Json.get_string j "name" "Unknown City" = .ok c ∧
          Json.key_value Json.get_double j "main" "temp" 0 = .ok t ∧
          Json.key_value Json.get_double j "main" "feels_like" 0 = .ok f ∧
          Json.key_value Json.get_int j "main" "humidity" 0 = .ok h ∧
          Json.key_value Json.get_int j "main" "pressure" 0 = .ok p ∧
          Json.key_idx_value Json.get_string j "weather" 0 "main" "Unknown" = .ok m ∧
          Json.key_idx_value Json.get_string j "weather" 0 "description" "No description"
            = .ok d ∧
          Json.key_value Json.get_double j "wind" "speed" 0 = .error e ∧
          parseWeatherDataConcise parse body
            = ⟨c, t - 273.15, f - 273.15, h, p, d, m, 0, false⟩))) := by
  constructor
  · revert hinv
    simp only [parseWeatherDataConcise]
    repeat' split
    all_goals simp [WeatherData.setValid, WeatherData.setCity,
      WeatherData.setTemperature, WeatherData.setFeelsLike, WeatherData.setHumidity,
      WeatherData.setPressure, WeatherData.setMain, WeatherData.setDescription,
      WeatherData.setWindSpeed, WeatherData.init]
  cases hp : parse body with
  | error e0 =>
    left
    exact ⟨e0, rfl, by simp [parseWeatherDataConcise, hp, WeatherData.setValid,
      WeatherData.init]⟩
  | ok j =>
    right
    refine ⟨j, rfl, ?_⟩
    cases hc : Json.value Json.get_string j "name" "Unknown City" with
    | error e1 =>
      left
      exact ⟨e1, rfl, by simp [parseWeatherDataConcise, hp, hc, WeatherData.setValid,
        WeatherData.init]⟩
    | ok c =>
      right
      obtain ⟨ms, rfl⟩ := Json.value_ok_obj _ _ _ _ _ hc
      obtain ⟨j1, mn, hk⟩ := Json.at_key_obj_ok "main" ms
      have kv : ∀ {α : Type} (get : Json → Except Exn α) (f : String) (d : α),
          Json.key_value get (.obj ms) "main" f d = Json.value get mn f d := by
        intro α get f d
        simp [Json.key_value, hk]
      obtain ⟨j3, wn, hkw⟩ := Json.at_key_obj_ok "wind" ms
      have kvw : Json.key_value Json.get_double (.obj ms) "wind" "speed" 0
          = Json.value Json.get_double wn "speed" 0 := by
        simp [Json.key_value, hkw]
      generalize hR : parseWeatherDataConcise parse body = R at hinv ⊢
      simp only [parseWeatherDataConcise, hp, hc, hk] at hR
      simp only [kv, kvw]
      cases ht : Json.value Json.get_double mn "temp" 0 with
      | error e =>
        simp only [ht] at hR
        exact Or.inl ⟨c, e, rfl, rfl, hR.symm⟩
      | ok t =>
      right
      have hj := Json.at_key_same_of_value _ _ _ _ _ _ _ _ hk ht
      subst hj
      simp only [ht, hk] at hR
      cases hf : Json.value Json.get_double mn "feels_like" 0 with
      | error e =>
        simp only [hf] at hR
        exact Or.inl ⟨c, t, e, rfl, rfl, rfl, hR.symm⟩
      | ok f =>
      right
      simp only [hf, hk] at hR
      cases hh : Json.value Json.get_int mn "humidity" 0 with
      | error e =>
        simp only [hh] at hR
        exact Or.inl ⟨c, t, f, e, rfl, rfl, rfl, rfl, hR.symm⟩
      | ok h =>
      right
      simp only [hh, hk] at hR
      cases hpr : Json.value Json.get_int mn "pressure" 0 with
      | error e =>
        simp only [hpr] at hR
        exact Or.inl ⟨c, t, f, h, e, rfl, rfl, rfl, rfl, rfl, hR.symm⟩
      | ok p =>
      right
      simp only [hpr] at hR
      cases hw : Json.at_key_idx (.obj ms) "weather" 0 with
      | error e =>
        simp only [hw] at hR
        simp only [Json.key_idx_value, hw]
        exact Or.inl ⟨c, t, f, h, p, e, rfl, rfl, rfl, rfl, rfl, rfl, hR.symm⟩
      | ok pr =>
      obtain ⟨j2, el⟩ := pr
      simp only [hw] at hR
      simp only [Json.key_idx_value, hw]
      cases hm : Json.value Json.get_string el "main" "Unknown" with
      | error e =>
        simp only [hm] at hR
        exact Or.inl ⟨c, t, f, h, p, e, rfl, rfl, rfl, rfl, rfl, rfl, hR.symm⟩
      | ok m =>
      right
      have hj := Json.at_key_idx_same_of_value _ _ _ _ _ _ _ _ hw hm
      subst hj
      simp only [hm, hw] at hR
      cases hd : Json.value Json.get_string el "description" "No description" with
      | error e =>
        simp only [hd] at hR
        exact Or.inl ⟨c, t, f, h, p, m, e, rfl, rfl, rfl, rfl, rfl, rfl, rfl, hR.symm⟩
      | ok d =>
      right
      simp only [hd, hkw] at hR
      cases hs : Json.value Json.get_double wn "speed" 0 with
      | error e =>
        simp only [hs] at hR
        exact ⟨c, t, f, h, p, m, d, e, rfl, rfl, rfl, rfl, rfl, rfl, rfl, rfl, hR.symm⟩
      | ok sp =>
        simp only [hs] at hR
        rw [← hR] at hinv
        simp [WeatherData.setValid] at hinv

theorem invalid_report_is_stage_witness :
    (parseWeatherDataConcise (parse_only body_london_only (.obj members_london_only))
      body_london_only).wind_speed = 0 :=
  (invalid_report_is_stage (parse_only body_london_only (.obj members_london_only))
    body_london_only (by
      simp [parseWeatherDataConcise, parse_only, members_london_only, Json.value, Json.find,
        Json.get_string, Json.at_key, Json.store, WeatherData.setValid, WeatherData.setCity,
        WeatherData.init])).1

/-- C9 (counterexample): on the body `\x7b"name": "London"\x7d` the report has
`valid = false` and its city is "London", not the constructed empty string. -/
theorem failed_parse_keeps_city :
    (parseWeatherDataConcise (parse_only body_london_only (.obj members_london_only))
      body_london_only).valid = false ∧
    (parseWeatherDataConcise (parse_only body_london_only (.obj members_london_only))
      body_london_only).city = "London" ∧
    (parseWeatherDataConcise (parse_only body_london_only (.obj members_london_only))
      body_london_only).city ≠ "" := by
  have hr : parseWeatherDataConcise (parse_only body_london_only (.obj members_london_only))
      body_london_only = ⟨"London", 0, 0, 0, 0, "", "", 0, false⟩ := by
    simp [parseWeatherDataConcise, parse_only, members_london_only, Json.value, Json.find,
      Json.get_string, Json.at_key, Json.store, WeatherData.setValid, WeatherData.setCity,
      WeatherData.init]
  rw [hr]
  exact ⟨rfl, rfl, by decide⟩

/-- C10: for a JSON object body in which `weather` is absent or an empty array,
or `main` or `wind` is absent, the parser returns a report with `valid = false`;
a lookup of an absent key yields `null`, and `value` on `null` throws. -/
theorem missing_section_gives_invalid (parse : String → Except Exn Json) (body : String)
    (ms : List (String × Json)) (hp : parse body = .ok (.obj ms))
    (hmiss : Json.find "weather" ms = none ∨ Json.find "weather" ms = some (.arr []) ∨
      Json.find "main" ms = none ∨ Json.find "wind" ms = none) :
    (parseWeatherDataConcise parse body).valid = false ∧
    (∀ k, Json.find k ms = none →
      Json.at_key (.obj ms) k = .ok (.obj (Json.store k .null ms), .null)) ∧
    Json.at_idx (.arr []) 0 = .ok (.arr [.null], .null) ∧
    (∀ k d, Json.value Json.get_string .null k d = .error (.type_error 306)) ∧
    (∀ k d, Json.value Json.get_double .null k d = .error (.type_error 306)) := by
  refine ⟨?_, ?_, ?_, ?_, ?_⟩
  · cases hv : (parseWeatherDataConcise parse body).valid with
    | false => rfl
    | true =>
      obtain ⟨ms2, mm, em, wm, rest, c, wmn, d, t, f, s, h, p, hp2, hmain, hweather, hwind, _⟩ :=
        valid_report_structure parse body hv
      rw [hp] at hp2
      cases hp2
      rcases hmiss with h1 | h1 | h1 | h1
      · rw [h1] at hweather; cases hweather
      · rw [h1] at hweather; cases hweather
      · rw [h1] at hmain; cases hmain
      · rw [h1] at hwind; cases hwind
  · intro k hk
    simp [Json.at_key, hk]
  · simp [Json.at_idx]
  · intro k d; rfl
  · intro k d; rfl

theorem missing_section_gives_invalid_witness :
    (parseWeatherDataConcise (parse_only body_london_only (.obj members_london_only))
      body_london_only).valid = false :=
  (missing_section_gives_invalid (parse_only body_london_only (.obj members_london_only))
    body_london_only members_london_only (by simp [parse_only])
    (Or.inl (by simp [members_london_only, Json.find]))).1

end Weather
